import Mathlib

/-!
Shallow embedding of the computational fragments of the car-maintenance
mobile app: the due-date classifier (`calculateReminderStatus` in
NotificationsScreen.tsx and `getReminderStatus` in the manage-reminders
screen), the dashboard aggregator (`getDashboardStats` in
services/database.ts), the notification loader (`loadReminders` in
NotificationsScreen.tsx), and the haversine distance estimator
(`calculateDistance` in the workshop-finder screen).

Dates that the source normalizes to midnight with `setHours(0,0,0,0)` are
represented by their integer day index; both dates then sit at midnight of
a uniform 86,400,000 ms day, so the source's
`Math.ceil((target - today) / 86400000)` is exactly the day-index
difference.  Raw timestamps that the aggregator compares without midnight
normalization are represented as integer milliseconds.
-/

namespace CarMaint

/-- Life-cycle status of a reminder (`Reminder.status` in types/index.ts):
one of `pending`, `completed`, `dismissed`. -/
inductive LifeStatus
  | pending
  | completed
  | dismissed
deriving DecidableEq, Repr

/-- The `reminderDate` string field as it behaves at the two guards in the
source: `missing` models a JS-falsy value (absent or empty string, caught
by `!reminder.reminderDate`), `unparseable` a nonempty string for which
`new Date(s).getTime()` is NaN (caught by the `isNaN` check), and
`valid day` a string that parses; `day` is the day index of the parsed
date after `setHours(0,0,0,0)` normalization. -/
inductive DateField
  | missing
  | unparseable
  | valid (day : Int)
deriving DecidableEq, Repr

/-- The `nextDueDate` string field of a maintenance record as it behaves in
`getDashboardStats`: `absent` models a JS-falsy value (the
`!record.nextDueDate` guard returns false), `unparseable` a string for
which `new Date` yields NaN, so both of the source's `<=` and `>=`
comparisons are false, and `parsed ms` a string parsed to a raw
millisecond timestamp (no midnight normalization happens here). -/
inductive DueDate
  | absent
  | unparseable
  | parsed (ms : Int)
deriving DecidableEq, Repr

/-- `User` record from types/index.ts. -/
structure User where
  id : String
  username : String
  email : String
  firstName : String
  lastName : String
  phoneNumber : Option String
  dateOfBirth : Option String
  role : String
  profileImageUrl : Option String
  createdAt : String
  updatedAt : String
deriving DecidableEq, Repr

/-- `Car` record from types/index.ts (the string-literal union `CarSubType`
is represented by its runtime value, a string). -/
structure Car where
  id : String
  make : String
  model : String
  year : Int
  licensePlate : String
  subType : String
  mileage : Int
  color : Option String
  vin : Option String
  firstMaintenance : Option String
  firstOilChangeDate : Option String
  mileageAtFirstOilChange : Option Int
  oilChangeInterval : Option Int
  imageUrls : List String
  ownerId : String
  owner : Option User
  createdAt : String
  updatedAt : String
deriving DecidableEq, Repr

/-- `Reminder` record from types/index.ts.  The string-literal union
`ReminderType` is represented by its runtime value, a string; monetary
and count fields of the app are JS numbers, represented as `Int`
(`notifyBefore` is documented as a number of days). -/
structure Reminder where
  id : String
  userId : String
  carId : Option String
  car : Option Car
  title : String
  description : Option String
  reminderDate : DateField
  reminderTime : Option String
  type : String
  status : LifeStatus
  notifyBefore : Option Int
  createdAt : String
  updatedAt : String
deriving DecidableEq, Repr

/-- Geographic location record from types/index.ts. -/
structure GeoPoint where
  latitude : Int
  longitude : Int
  address : Option String
  name : Option String
deriving DecidableEq, Repr

/-- `MaintenanceRecord` from types/index.ts.  The optional `cost` is a JS
number used in exact sums, represented as a rational. -/
structure MaintenanceRecord where
  id : String
  carId : String
  car : Option Car
  maintenanceDate : String
  mileage : Option Int
  description : String
  performedBy : Option String
  cost : Option ℚ
  category : Option String
  imageUrls : List String
  location : Option GeoPoint
  nextDueDate : DueDate
  nextDueMileage : Option Int
  notes : Option String
  createdAt : String
  updatedAt : String
deriving DecidableEq, Repr

/-- Oil-change record as consumed by `getDashboardStats`.  Its interface
declaration is not among the provided sources; `getDashboardStats` reads
only its optional `cost` field and the list length, so only `cost` is
carried here. -/
structure OilChangeRecord where
  cost : Option ℚ
deriving DecidableEq, Repr

/-- Result record of `getDashboardStats`. -/
structure DashboardStats where
  totalCars : Nat
  totalMaintenanceRecords : Nat
  totalOilChanges : Nat
  totalMaintenanceCost : ℚ
  upcomingMaintenance : Nat
deriving DecidableEq, Repr

/-- The source's `let xs = []; try { xs = await fetch() } catch { }`
pattern in `getDashboardStats`: each fetch result, an `Except`, falls
back to the empty list on failure. -/
def fetchedList {α : Type} (res : Except String (List α)) : List α :=
  match res with
  | .ok xs => xs
  | .error _ => []

/-- The aggregator `getDashboardStats` from services/database.ts.  Each of
the three fetches is wrapped in its own try/catch in the source and falls
back to the empty list on failure; a fetch result is therefore an
`Except`.  `now` is the millisecond timestamp of `new Date()` at the call
(the source reads it from the ambient clock).  `record.cost || 0` agrees
with `Option.getD 0` because a stored cost of 0 also yields 0. -/
def getDashboardStats (carsRes : Except String (List Car))
    (maintRes : Except String (List MaintenanceRecord))
    (oilRes : Except String (List OilChangeRecord))
    (now : Int) : DashboardStats :=
  let cars : List Car := fetchedList carsRes
  let maintenance : List MaintenanceRecord := fetchedList maintRes
  let oilChanges : List OilChangeRecord := fetchedList oilRes
  let totalMaintenanceCost : ℚ :=
    maintenance.foldl (fun sum record => sum + record.cost.getD 0) 0 +
      oilChanges.foldl (fun sum record => sum + record.cost.getD 0) 0
  let oneMonthFromNow : Int := now + 30 * 24 * 60 * 60 * 1000
  let upcomingMaintenance : Nat :=
    (maintenance.filter fun record =>
      match record.nextDueDate with
      | .absent => false
      | .unparseable => false
      | .parsed dueDate => decide (dueDate ≤ oneMonthFromNow) && decide (now ≤ dueDate)).length
  { totalCars := cars.length
    totalMaintenanceRecords := maintenance.length
    totalOilChanges := oilChanges.length
    totalMaintenanceCost := totalMaintenanceCost
    upcomingMaintenance := upcomingMaintenance }

/-- Derived urgency status computed by `calculateReminderStatus` in
NotificationsScreen.tsx. -/
inductive DueStatus
  | overdue
  | due_today
  | due_soon
  | upcoming
deriving DecidableEq, Repr

/-- `ReminderNotification` record from NotificationsScreen.tsx. -/
structure ReminderNotification where
  id : String
  reminder : Reminder
  car : Option Car
  status : DueStatus
  daysUntil : Int
  message : String
deriving DecidableEq, Repr

/-- The JS expression `reminder.notifyBefore || 1`: the default of 1 fires
not only when the field is absent but also when the stored value is 0,
because 0 is falsy. -/
def effectiveNotifyBefore (notifyBefore : Option Int) : Int :=
  match notifyBefore with
  | none => 1
  | some n => if n = 0 then 1 else n

/-- Pluralising suffix `n !== 1 ? 's' : ''` used in the messages. -/
def daySuffix (n : Int) : String :=
  if n ≠ 1 then "s" else ""

/-- The four-branch status/message assignment inside
`calculateReminderStatus`, naming the source's if/else chain over
`daysUntil` and the effective notify-before window. -/
def statusAndMessage (daysUntil : Int) (notifyWindow : Int) : DueStatus × String :=
  if daysUntil < 0 then
    (.overdue, "Overdue by " ++ toString |daysUntil| ++ " day" ++ daySuffix |daysUntil|)
  else if daysUntil = 0 then
    (.due_today, "Due today")
  else if daysUntil ≤ notifyWindow then
    (.due_soon, "Due in " ++ toString daysUntil ++ " day" ++ daySuffix daysUntil)
  else
    (.upcoming, "Due in " ++ toString daysUntil ++ " day" ++ daySuffix daysUntil)

/-- The classifier `calculateReminderStatus` from NotificationsScreen.tsx.
`today` is the day index of the ambient `new Date()` after the source's
`setHours(0,0,0,0)`; the source obtains it from the clock inside the
function body, so it is an implicit input made explicit here.  An empty
`id` models the JS-falsy ids caught by `!reminder.id`.  The source's
`Math.ceil((reminderDate - today) / 86400000)` is the day-index
difference, both dates being normalized to midnight. -/
def calculateReminderStatus (reminder : Reminder) (car : Option Car)
    (today : Int) : Option ReminderNotification :=
  if reminder.id = "" then none else
  match reminder.reminderDate with
  | .missing => none
  | .unparseable => none
  | .valid reminderDay =>
    let daysUntil : Int := reminderDay - today
    let result : DueStatus × String :=
      statusAndMessage daysUntil (effectiveNotifyBefore reminder.notifyBefore)
    some { id := reminder.id
           reminder := reminder
           car := car
           status := result.1
           daysUntil := daysUntil
           message := result.2 }

/-- The runtime string of a life-cycle status, as returned by the
manage-reminders screen when the reminder is not pending. -/
def lifeStatusString (s : LifeStatus) : String :=
  match s with
  | .pending => "pending"
  | .completed => "completed"
  | .dismissed => "dismissed"

/-- The classifier `getReminderStatus` from the manage-reminders screen.
A non-pending reminder keeps its stored status.  The source parses the
date with no validity check: a missing or unparseable date makes
`diffDays` NaN, every comparison against NaN is false, and the function
falls through to `'upcoming'`.  The due-soon guard is
`reminder.notifyBefore && diffDays <= reminder.notifyBefore`: no default
window is applied, an absent or zero `notifyBefore` (JS-falsy) skips the
due-soon case. -/
def getReminderStatus (reminder : Reminder) (today : Int) : String :=
  if reminder.status ≠ .pending then lifeStatusString reminder.status else
  match reminder.reminderDate with
  | .missing => "upcoming"
  | .unparseable => "upcoming"
  | .valid reminderDay =>
    let diffDays : Int := reminderDay - today
    if diffDays < 0 then "overdue"
    else if diffDays = 0 then "today"
    else
      match reminder.notifyBefore with
      | some n => if n ≠ 0 ∧ diffDays ≤ n then "due_soon" else "upcoming"
      | none => "upcoming"

/-- The filter-and-classify loop of `loadReminders` in
NotificationsScreen.tsx, before the final sort: reminders with a JS-falsy
id or date, or with status completed or dismissed, are skipped; the car
is looked up by `cars.find` when `reminder.carId` is truthy; the
classifier's non-null results are collected in order. -/
def buildNotifications (reminders : List Reminder) (cars : List Car)
    (today : Int) : List ReminderNotification :=
  reminders.foldr
    (fun reminder acc =>
      if reminder.id = "" ∨ reminder.reminderDate = .missing then acc
      else if reminder.status = .completed ∨ reminder.status = .dismissed then acc
      else
        let car : Option Car :=
          match reminder.carId with
          | some cid => if cid = "" then none else cars.find? fun c => c.id = cid
          | none => none
        match calculateReminderStatus reminder car today with
        | some notification => notification :: acc
        | none => acc)
    []

/-- `loadReminders` from NotificationsScreen.tsx (its pure core): build the
notification list and sort it by `(a, b) => a.daysUntil - b.daysUntil`,
modelled as a stable sort by `daysUntil`. -/
def loadReminders (reminders : List Reminder) (cars : List Car)
    (today : Int) : List ReminderNotification :=
  (buildNotifications reminders cars today).insertionSort
    fun a b => a.daysUntil ≤ b.daysUntil

/-- JS `Math.atan2(y, x)` on the real numbers (the source only ever reaches
the `x > 0` branch, since `x = Math.sqrt(1 - a)` with `0 ≤ a ≤ 1`, but the
full case split is kept). -/
noncomputable def atan2 (y x : ℝ) : ℝ :=
  if 0 < x then Real.arctan (y / x)
  else if x < 0 ∧ 0 ≤ y then Real.arctan (y / x) + Real.pi
  else if x < 0 ∧ y < 0 then Real.arctan (y / x) - Real.pi
  else if x = 0 ∧ 0 < y then Real.pi / 2
  else if x = 0 ∧ y < 0 then -(Real.pi / 2)
  else 0

/-- The haversine distance `calculateDistance` from the workshop-finder
screen: Earth radius 6371 km, inputs in degrees.  IEEE doubles are
modelled by the reals (the special values NaN and infinity do not arise
on the inputs in the claims). -/
noncomputable def calculateDistance (lat1 lon1 lat2 lon2 : ℝ) : ℝ :=
  let R : ℝ := 6371
  let dLat : ℝ := (lat2 - lat1) * Real.pi / 180
  let dLon : ℝ := (lon2 - lon1) * Real.pi / 180
  let a : ℝ :=
    Real.sin (dLat / 2) * Real.sin (dLat / 2) +
      Real.cos (lat1 * Real.pi / 180) * Real.cos (lat2 * Real.pi / 180) *
        Real.sin (dLon / 2) * Real.sin (dLon / 2)
  let c : ℝ := 2 * atan2 (Real.sqrt a) (Real.sqrt (1 - a))
  R * c

/-- The classification rule as the specification states it (§4.1), taken
verbatim from its four bullet points, over a given effective
notify-before window. -/
def classifySpec (daysUntil : Int) (notifyBeforeDays : Int) : DueStatus :=
  if daysUntil < 0 then .overdue
  else if daysUntil = 0 then .due_today
  else if 0 < daysUntil ∧ daysUntil ≤ notifyBeforeDays then .due_soon
  else .upcoming

/-- A concrete reminder used to instantiate the theorems: pending, with a
parseable date at day index `day` and the given `notifyBefore`. -/
def mkReminder (day : Int) (notifyBefore : Option Int) : Reminder :=
  { id := "rem-1"
    userId := "user-1"
    carId := none
    car := none
    title := "Oil change"
    description := none
    reminderDate := .valid day
    reminderTime := none
    type := "Oil Change"
    status := .pending
    notifyBefore := notifyBefore
    createdAt := "2024-05-01"
    updatedAt := "2024-05-01" }

/-- A concrete reminder whose date string does not parse (`new Date` gives
NaN). -/
def unparseableReminder : Reminder :=
  { mkReminder 0 none with reminderDate := .unparseable }

/-- A concrete maintenance record with the given cost and next due date. -/
def mkMaintenanceRecord (cost : Option ℚ) (nextDueDate : DueDate) :
    MaintenanceRecord :=
  { id := "maint-1"
    carId := "car-1"
    car := none
    maintenanceDate := "2024-05-01"
    mileage := some 42000
    description := "Brake service"
    performedBy := none
    cost := cost
    category := some "Brake Service"
    imageUrls := []
    location := none
    nextDueDate := nextDueDate
    nextDueMileage := none
    notes := none
    createdAt := "2024-05-01"
    updatedAt := "2024-05-01" }

theorem foldl_add_cost {α : Type} (f : α → ℚ) (l : List α) (a : ℚ) :
    l.foldl (fun sum x => sum + f x) a = a + (l.map f).sum := by
  induction l generalizing a with
  | nil => simp
  | cons x xs ih => simp [ih, add_assoc]

/-- C5 (amended): the dashboard's total cost is the sum of the maintenance
records' optional costs PLUS the sum of the oil-change records' optional
costs, absent costs counting as 0; with a single maintenance record of
cost 150.50 and no next due date (and no oil changes) it is 150.50 with
`upcomingMaintenance` 0. -/
theorem dashboard_totalCost_sums_costs :
    (∀ (carsRes : Except String (List Car))
       (maintRes : Except String (List MaintenanceRecord))
       (oilRes : Except String (List OilChangeRecord)) (now : Int),
      (getDashboardStats carsRes maintRes oilRes now).totalMaintenanceCost =
        ((fetchedList maintRes).map fun r => r.cost.getD 0).sum +
          ((fetchedList oilRes).map fun r => r.cost.getD 0).sum) ∧
    (getDashboardStats (.ok []) (.ok [mkMaintenanceRecord (some 150.50) .absent])
        (.ok []) 0).totalMaintenanceCost = 150.50 ∧
    (getDashboardStats (.ok []) (.ok [mkMaintenanceRecord (some 150.50) .absent])
        (.ok []) 0).upcomingMaintenance = 0 := by
  refine ⟨fun carsRes maintRes oilRes now => ?_, ?_, rfl⟩
  · simp [getDashboardStats, foldl_add_cost]
  · simp [getDashboardStats, fetchedList, mkMaintenanceRecord]

/-- C5 as stated is false at a concrete input: an oil-change record's cost
also enters `totalMaintenanceCost`, so with no maintenance records and one
oil change of cost 10 the total is 10, not the maintenance-cost sum 0. -/
theorem dashboard_totalCost_cex :
    (getDashboardStats (.ok []) (.ok []) (.ok [{ cost := some 10 }])
        0).totalMaintenanceCost = 10 ∧
    ((([] : List MaintenanceRecord)).map fun r => r.cost.getD 0).sum = 0 ∧
    (10 : ℚ) ≠ 0 := by
  refine ⟨?_, rfl, by norm_num⟩
  simp [getDashboardStats, fetchedList]

/-- C6: `upcomingMaintenance` counts exactly the maintenance records whose
next due date is present, parses, and lies within the inclusive window
from `now` to `now` plus 30 days of milliseconds; records with an absent
(or unparseable) next due date are never counted. -/
theorem dashboard_upcoming_window
    (carsRes : Except String (List Car))
    (maintRes : Except String (List MaintenanceRecord))
    (oilRes : Except String (List OilChangeRecord)) (now : Int) :
    (getDashboardStats carsRes maintRes oilRes now).upcomingMaintenance =
      (fetchedList maintRes).countP fun record =>
        match record.nextDueDate with
        | .parsed dueDate =>
            decide (now ≤ dueDate ∧ dueDate ≤ now + 30 * 24 * 60 * 60 * 1000)
        | .absent => false
        | .unparseable => false := by
  simp only [getDashboardStats]
  rw [List.countP_eq_length_filter]
  congr 1
  apply List.filter_congr
  intro record _
  cases record.nextDueDate <;> simp [Bool.and_comm]

/-- C7: a failed cars or maintenance fetch does not fail the aggregation:
the result equals aggregating with that list empty, with the affected
fields zeroed (cost degrades to the oil-change sum when maintenance is
missing). -/
theorem dashboard_partial_failure :
    (∀ (e : String) (maintRes : Except String (List MaintenanceRecord))
       (oilRes : Except String (List OilChangeRecord)) (now : Int),
       getDashboardStats (.error e) maintRes oilRes now =
         getDashboardStats (.ok []) maintRes oilRes now ∧
       (getDashboardStats (.error e) maintRes oilRes now).totalCars = 0) ∧
    (∀ (e : String) (carsRes : Except String (List Car))
       (oilRes : Except String (List OilChangeRecord)) (now : Int),
       getDashboardStats carsRes (.error e) oilRes now =
         getDashboardStats carsRes (.ok []) oilRes now ∧
       (getDashboardStats carsRes (.error e) oilRes now).totalMaintenanceRecords = 0 ∧
       (getDashboardStats carsRes (.error e) oilRes now).upcomingMaintenance = 0 ∧
       (getDashboardStats carsRes (.error e) oilRes now).totalMaintenanceCost =
         ((fetchedList oilRes).map fun r => r.cost.getD 0).sum) := by
  constructor
  · intro e maintRes oilRes now
    exact ⟨rfl, rfl⟩
  · intro e carsRes oilRes now
    refine ⟨rfl, rfl, rfl, ?_⟩
    simp [getDashboardStats, fetchedList, foldl_add_cost]

theorem statusAndMessage_fst_eq_classifySpec (d nb : Int) :
    (statusAndMessage d nb).1 = classifySpec d nb := by
  unfold statusAndMessage classifySpec
  split_ifs <;> first | rfl | omega

theorem statusAndMessage_overdue_iff (d nb : Int) :
    (statusAndMessage d nb).1 = .overdue ↔ d < 0 := by
  unfold statusAndMessage
  split_ifs <;> simp <;> omega

theorem calculateReminderStatus_valid (reminder : Reminder) (car : Option Car)
    (today day : Int) (hid : reminder.id ≠ "")
    (hdate : reminder.reminderDate = .valid day) :
    calculateReminderStatus reminder car today =
      some { id := reminder.id
             reminder := reminder
             car := car
             status := (statusAndMessage (day - today)
                 (effectiveNotifyBefore reminder.notifyBefore)).1
             daysUntil := day - today
             message := (statusAndMessage (day - today)
                 (effectiveNotifyBefore reminder.notifyBefore)).2 } := by
  unfold calculateReminderStatus
  rw [hdate, if_neg hid]

theorem calculateReminderStatus_missing (reminder : Reminder) (car : Option Car)
    (today : Int) (hdate : reminder.reminderDate = .missing) :
    calculateReminderStatus reminder car today = none := by
  unfold calculateReminderStatus
  rw [hdate]
  split <;> rfl

theorem calculateReminderStatus_some {reminder : Reminder} {car : Option Car}
    {today : Int} {n : ReminderNotification}
    (h : calculateReminderStatus reminder car today = some n) :
    n.reminder = reminder ∧ (n.status = .overdue ↔ n.daysUntil < 0) := by
  by_cases hid : reminder.id = ""
  · unfold calculateReminderStatus at h
    rw [if_pos hid] at h
    exact absurd h (by simp)
  · cases hdate : reminder.reminderDate with
    | missing => rw [calculateReminderStatus_missing reminder car today hdate] at h
                 exact absurd h (by simp)
    | unparseable =>
        unfold calculateReminderStatus at h
        rw [hdate, if_neg hid] at h
        exact absurd h (by simp)
    | valid day =>
        rw [calculateReminderStatus_valid reminder car today day hid hdate] at h
        injection h with h
        rw [← h]
        exact ⟨rfl, statusAndMessage_overdue_iff _ _⟩

/-- C1 (amended): for every reminder with a parseable target date, the
classifier returns exactly the status determined by
`daysUntil = targetDate - today` through the spec's four rules, with the
effective notify-before window being the stored value except that the
default of 1 applies when the field is absent OR stored as 0 (the JS
`notifyBefore || 1` treats a stored 0 as absent); in particular for
today = 2024-06-01 (day index 19875), targetDate = 2024-06-03 (day index
19877) and notifyBefore = 2 the result is due_soon with daysUntil = 2. -/
theorem classifier_implements_spec_rule (reminder : Reminder)
    (car : Option Car) (today day : Int) (hid : reminder.id ≠ "")
    (hdate : reminder.reminderDate = .valid day) :
    ((calculateReminderStatus reminder car today).map ReminderNotification.status =
        some (classifySpec (day - today)
          (effectiveNotifyBefore reminder.notifyBefore)) ∧
      (calculateReminderStatus reminder car today).map ReminderNotification.daysUntil =
        some (day - today)) ∧
    (calculateReminderStatus (mkReminder 19877 (some 2)) none 19875).map
        ReminderNotification.status = some .due_soon ∧
    (calculateReminderStatus (mkReminder 19877 (some 2)) none 19875).map
        ReminderNotification.daysUntil = some 2 := by
  refine ⟨⟨?_, ?_⟩, rfl, rfl⟩
  · rw [calculateReminderStatus_valid reminder car today day hid hdate]
    simp [statusAndMessage_fst_eq_classifySpec]
  · rw [calculateReminderStatus_valid reminder car today day hid hdate]
    rfl

/-- Witness for C1's theorem at the spec's end-to-end example. -/
theorem classifier_implements_spec_rule_witness :
    (((calculateReminderStatus (mkReminder 19877 (some 2)) none 19875).map
          ReminderNotification.status =
        some (classifySpec (19877 - 19875)
          (effectiveNotifyBefore (mkReminder 19877 (some 2)).notifyBefore)) ∧
      (calculateReminderStatus (mkReminder 19877 (some 2)) none 19875).map
          ReminderNotification.daysUntil = some (19877 - 19875)) ∧
     (calculateReminderStatus (mkReminder 19877 (some 2)) none 19875).map
         ReminderNotification.status = some .due_soon ∧
     (calculateReminderStatus (mkReminder 19877 (some 2)) none 19875).map
         ReminderNotification.daysUntil = some 2) :=
  classifier_implements_spec_rule (mkReminder 19877 (some 2)) none 19875 19877
    (by decide) rfl

/-- C1 as stated is false at a concrete input: with a stored notify-before
of 0 and daysUntil = 1 the claim's rules give upcoming (1 is neither
negative, zero, nor ≤ 0), but the code treats the falsy 0 as absent and
returns due_soon. -/
theorem classifier_notifyBefore_zero_cex :
    (mkReminder 1 (some 0)).notifyBefore = some 0 ∧
    (calculateReminderStatus (mkReminder 1 (some 0)) none 0).map
        ReminderNotification.daysUntil = some 1 ∧
    ¬((1 : Int) < 0) ∧ (1 : Int) ≠ 0 ∧ ¬(0 < (1 : Int) ∧ (1 : Int) ≤ 0) ∧
    (calculateReminderStatus (mkReminder 1 (some 0)) none 0).map
        ReminderNotification.status = some .due_soon ∧
    DueStatus.due_soon ≠ .upcoming :=
  ⟨rfl, rfl, by decide, by decide, by decide, rfl, by decide⟩

/-- C2 (amended): with notifyBefore absent and daysUntil = 1, the
notifications-screen classifier applies the default window of 1 and
returns due_soon, but the manage-reminders classifier applies no default
(its guard is `notifyBefore && ...`) and classifies the same pending
reminder "upcoming". -/
theorem default_window_divergence (reminder : Reminder) (car : Option Car)
    (today day : Int) (hid : reminder.id ≠ "")
    (hdate : reminder.reminderDate = .valid day)
    (hnb : reminder.notifyBefore = none) (hdiff : day - today = 1) :
    (calculateReminderStatus reminder car today).map ReminderNotification.status =
      some .due_soon ∧
    (reminder.status = .pending → getReminderStatus reminder today = "upcoming") := by
  constructor
  · rw [calculateReminderStatus_valid reminder car today day hid hdate]
    simp [statusAndMessage, hnb, hdiff, effectiveNotifyBefore]
  · intro hp
    unfold getReminderStatus
    rw [hdate]
    simp [hp, hnb, hdiff]

/-- Witness for C2's theorem: a pending reminder due tomorrow with no
notify-before value. -/
theorem default_window_divergence_witness :
    ((calculateReminderStatus (mkReminder 1 none) none 0).map
        ReminderNotification.status = some .due_soon ∧
      ((mkReminder 1 none).status = .pending →
        getReminderStatus (mkReminder 1 none) 0 = "upcoming")) :=
  default_window_divergence (mkReminder 1 none) none 0 1 (by decide) rfl rfl rfl

/-- C2 as stated is false at a concrete input: the reminder-management
classifier does not default the notify-before window, so a pending
reminder with no notifyBefore and daysUntil = 1 is classified "upcoming",
not due_soon. -/
theorem manage_no_default_cex :
    (mkReminder 1 none).notifyBefore = none ∧
    (mkReminder 1 none).status = .pending ∧
    getReminderStatus (mkReminder 1 none) 0 = "upcoming" ∧
    "upcoming" ≠ "due_soon" :=
  ⟨rfl, rfl, rfl, by decide⟩

/-- C3: the notifications-screen classifier does NOT fail with an
InvalidInput error on an unparseable target date — it silently returns
null (here `none`), the behavior the spec flags as a latent bug of the
source: every reminder whose date string fails to parse is dropped with
no error value. -/
theorem classifier_skips_unparseable (reminder : Reminder) (car : Option Car)
    (today : Int) (hdate : reminder.reminderDate = .unparseable) :
    calculateReminderStatus reminder car today = none := by
  unfold calculateReminderStatus
  rw [hdate]
  split <;> rfl

/-- Witness for C3's theorem at a concrete unparseable reminder. -/
theorem classifier_skips_unparseable_witness :
    calculateReminderStatus unparseableReminder none 0 = none :=
  classifier_skips_unparseable unparseableReminder none 0 rfl

/-- C4 (amended): the classifier is a pure function of the target date,
the notify-before value and the date value taken from the clock — its
status and daysUntil do not depend on any other reminder field or on the
car — but the source reads that date from the ambient `new Date()`
inside the function rather than taking it as an explicit parameter. -/
theorem classifier_deterministic (r1 r2 : Reminder) (c1 c2 : Option Car)
    (today : Int) (h1 : r1.id ≠ "") (h2 : r2.id ≠ "")
    (hdate : r1.reminderDate = r2.reminderDate)
    (hnb : r1.notifyBefore = r2.notifyBefore) :
    (calculateReminderStatus r1 c1 today).map ReminderNotification.status =
      (calculateReminderStatus r2 c2 today).map ReminderNotification.status ∧
    (calculateReminderStatus r1 c1 today).map ReminderNotification.daysUntil =
      (calculateReminderStatus r2 c2 today).map ReminderNotification.daysUntil := by
  cases hd : r2.reminderDate with
  | missing =>
      rw [hd] at hdate
      rw [calculateReminderStatus_missing r1 c1 today hdate,
        calculateReminderStatus_missing r2 c2 today hd]
      exact ⟨rfl, rfl⟩
  | unparseable =>
      rw [hd] at hdate
      rw [classifier_skips_unparseable r1 c1 today hdate,
        classifier_skips_unparseable r2 c2 today hd]
      exact ⟨rfl, rfl⟩
  | valid day =>
      rw [hd] at hdate
      rw [calculateReminderStatus_valid r1 c1 today day h1 hdate,
        calculateReminderStatus_valid r2 c2 today day h2 hd, hnb]
      exact ⟨rfl, rfl⟩

/-- Witness for C4's theorem: two reminders differing in id, title and
attached car but sharing date and notify-before value. -/
theorem classifier_deterministic_witness :
    ((calculateReminderStatus (mkReminder 3 (some 2)) none 0).map
        ReminderNotification.status =
      (calculateReminderStatus
          { mkReminder 3 (some 2) with id := "rem-2", title := "Tire rotation" }
          none 0).map ReminderNotification.status ∧
    (calculateReminderStatus (mkReminder 3 (some 2)) none 0).map
        ReminderNotification.daysUntil =
      (calculateReminderStatus
          { mkReminder 3 (some 2) with id := "rem-2", title := "Tire rotation" }
          none 0).map ReminderNotification.daysUntil) :=
  classifier_deterministic (mkReminder 3 (some 2))
    { mkReminder 3 (some 2) with id := "rem-2", title := "Tire rotation" }
    none none 0 (by decide) (by decide) rfl rfl

/-- C4 as stated is false on the source: the classifier's result varies
with the value read from the ambient clock — the same reminder is
upcoming when the clock reads day 0 and overdue when it reads day 5 — so
the source classifier does not take `today` as an explicit parameter and
is not independent of the ambient clock. -/
theorem classifier_clock_dependence_cex :
    (calculateReminderStatus (mkReminder 2 none) none 0).map
        ReminderNotification.status = some .upcoming ∧
    (calculateReminderStatus (mkReminder 2 none) none 5).map
        ReminderNotification.status = some .overdue ∧
    some DueStatus.upcoming ≠ some DueStatus.overdue :=
  ⟨rfl, rfl, by decide⟩

theorem mem_buildNotifications {reminders : List Reminder} {cars : List Car}
    {today : Int} {n : ReminderNotification}
    (h : n ∈ buildNotifications reminders cars today) :
    ∃ reminder car, calculateReminderStatus reminder car today = some n ∧
      reminder.id ≠ "" ∧ reminder.reminderDate ≠ .missing ∧
      reminder.status ≠ .completed ∧ reminder.status ≠ .dismissed := by
  induction reminders with
  | nil => exact absurd h (by simp [buildNotifications])
  | cons reminder rest ih =>
      simp only [buildNotifications, List.foldr_cons] at h
      by_cases hg1 : reminder.id = "" ∨ reminder.reminderDate = .missing
      · rw [if_pos hg1] at h
        exact ih h
      · rw [if_neg hg1] at h
        by_cases hg2 : reminder.status = .completed ∨ reminder.status = .dismissed
        · rw [if_pos hg2] at h
          exact ih h
        · rw [if_neg hg2] at h
          push_neg at hg1 hg2
          cases hc : calculateReminderStatus reminder
              (match reminder.carId with
               | some cid => if cid = "" then none else cars.find? fun c => c.id = cid
               | none => none) today with
          | none =>
              rw [hc] at h
              exact ih h
          | some notification =>
              rw [hc] at h
              rcases List.mem_cons.mp h with hn | hmem
              · exact ⟨reminder, _, hn ▸ hc, hg1.1, hg1.2, hg2.1, hg2.2⟩
              · exact ih hmem

/-- C9: no entry of the notifications list has an underlying reminder that
is completed or dismissed, or that is missing its id or its target date:
`loadReminders` filters such reminders out before classification. -/
theorem loadReminders_excludes_inactive (reminders : List Reminder)
    (cars : List Car) (today : Int) (n : ReminderNotification)
    (h : n ∈ loadReminders reminders cars today) :
    n.reminder.status ≠ .completed ∧ n.reminder.status ≠ .dismissed ∧
    n.reminder.id ≠ "" ∧ n.reminder.reminderDate ≠ .missing := by
  unfold loadReminders at h
  rw [List.mem_insertionSort] at h
  obtain ⟨reminder, car, hc, hid, hdate, hcomp, hdis⟩ := mem_buildNotifications h
  have hrem := (calculateReminderStatus_some hc).1
  rw [hrem]
  exact ⟨hcomp, hdis, hid, hdate⟩

/-- The notification that `loadReminders` produces for the sample pending
reminder due at day 2 as of day 0. -/
def sampleNotification : ReminderNotification :=
  { id := "rem-1"
    reminder := mkReminder 2 none
    car := none
    status := .upcoming
    daysUntil := 2
    message := "Due in 2 days" }

/-- Witness for C9's theorem on a singleton reminder list. -/
theorem loadReminders_excludes_inactive_witness :
    (sampleNotification.reminder.status ≠ .completed ∧
      sampleNotification.reminder.status ≠ .dismissed ∧
      sampleNotification.reminder.id ≠ "" ∧
      sampleNotification.reminder.reminderDate ≠ .missing) :=
  loadReminders_excludes_inactive [mkReminder 2 none] [] 0 sampleNotification
    (by decide)

theorem mem_loadReminders_overdue_iff {reminders : List Reminder}
    {cars : List Car} {today : Int} {n : ReminderNotification}
    (h : n ∈ loadReminders reminders cars today) :
    (n.status = .overdue ↔ n.daysUntil < 0) := by
  unfold loadReminders at h
  rw [List.mem_insertionSort] at h
  obtain ⟨reminder, car, hc, _, _, _, _⟩ := mem_buildNotifications h
  exact (calculateReminderStatus_some hc).2

/-- C10: the notifications list is sorted in non-decreasing order of
daysUntil, and consequently every overdue entry (daysUntil < 0) precedes
every non-overdue one. -/
theorem loadReminders_sorted (reminders : List Reminder) (cars : List Car)
    (today : Int) :
    (loadReminders reminders cars today).Sorted
        (fun a b => a.daysUntil ≤ b.daysUntil) ∧
    (loadReminders reminders cars today).Pairwise
        (fun a b => b.status = .overdue → a.status = .overdue) := by
  have hsorted : (loadReminders reminders cars today).Sorted
      (fun a b => a.daysUntil ≤ b.daysUntil) := by
    haveI : IsTotal ReminderNotification (fun a b => a.daysUntil ≤ b.daysUntil) :=
      ⟨fun a b => le_total a.daysUntil b.daysUntil⟩
    haveI : IsTrans ReminderNotification (fun a b => a.daysUntil ≤ b.daysUntil) :=
      ⟨fun a b c hab hbc => le_trans hab hbc⟩
    exact List.sorted_insertionSort _ _
  refine ⟨hsorted, List.Pairwise.imp_of_mem ?_ hsorted⟩
  intro a b ha hb hle hover
  have hb' := (mem_loadReminders_overdue_iff hb).mp hover
  exact (mem_loadReminders_overdue_iff ha).mpr (lt_of_le_of_lt hle hb')

/-- C8: the haversine distance estimator (Earth radius 6371 km) returns 0
for every pair of identical coordinates, including the all-zero input. -/
theorem calculateDistance_self_eq_zero (lat lon : ℝ) :
    calculateDistance lat lon lat lon = 0 := by
  unfold calculateDistance atan2
  simp [Real.sqrt_one, Real.arctan_zero]

end CarMaint
